import Mathlib

/-!
Shallow embedding of the threat-detection core of this repository
(`python_backend/services/threat_detector.py` and
`python_backend/services/network_monitor.py`), together with theorems
settling the behavioural claims about it.

Conventions of the embedding:
* Python floats that carry port numbers, packet sizes and feature values are
  modelled as `Int`; confidences, thresholds and accuracies as `ℚ`.
* A pandas `NaN` (missing cell) is modelled as `Option.none`; `pd.isna x`
  becomes a match on the option.
* A Python dict `.get(key, default)` is `Option.getD`.
* Exceptions are modelled with `Except String`; a `try/except` block becomes a
  match on the `Except` value.
* The scikit-learn scaler and random-forest model are opaque functions
  (`Scaler`, `Model`); the numeric fitting steps of `train_model` are
  abstracted into a `FitOracle` whose stages can fail, mirroring where the
  Python code can raise.
* The wall-clock hour used as feature 4 is passed explicitly as `clockHour`
  (the code reads it from the packet timestamp or `datetime.now()`).
-/

/-- The closed label set, `ThreatDetector.threat_types` (order of the source list). -/
def threat_types : List String :=
  ["Normal", "Malware", "DDoS", "Intrusion", "Phishing", "Port_Scan", "Brute_Force"]

/-- The classes stored by `LabelEncoder.fit(threat_types)`: `np.unique` sorts them. -/
def label_classes : List String :=
  ["Brute_Force", "DDoS", "Intrusion", "Malware", "Normal", "Phishing", "Port_Scan"]

/-- Default threat threshold: `float(os.getenv('THREAT_THRESHOLD', 0.7))` with the
environment variable unset. -/
def default_threat_threshold : ℚ := 7/10

/-- `ThreatDetector.get_protocol_number`: `none` models a NaN protocol cell. -/
def get_protocol_number (protocol : Option String) : Int :=
  match protocol with
  | none => 0
  | some p =>
    let u := p.toUpper
    if u = "TCP" then 6
    else if u = "UDP" then 17
    else if u = "ICMP" then 1
    else 0

/-- `ThreatDetector.get_port_category`: NaN port returns 0, otherwise the
1/2/3 well-known / registered / dynamic split. -/
def get_port_category (port : Option Int) : Int :=
  match port with
  | none => 0
  | some port =>
    if port < 1024 then 1
    else if port < 49152 then 2
    else 3

/-- `ThreatDetector.get_packet_size_category`: NaN size returns 0, otherwise
the 1/2/3/4 size buckets. -/
def get_packet_size_category (size : Option Int) : Int :=
  match size with
  | none => 0
  | some size =>
    if size < 64 then 1
    else if size < 512 then 2
    else if size < 1024 then 3
    else 4

/-- `ThreatDetector.get_ip_type_from_string`: NaN or empty string gives 0,
a private-prefix address gives 1, anything else gives 2.  The 172.16-172.31
check is the source's generator `any(ip_str.startswith(f'172.{i}.') for i in range(16, 32))`. -/
def get_ip_type_from_string (ip : Option String) : Int :=
  match ip with
  | none => 0
  | some s =>
    if s = "" then 0
    else if s.startsWith "192.168." || s.startsWith "10." ||
            ((List.range' 16 16).any fun i => s.startsWith ("172." ++ toString i ++ ".")) then 1
    else 2

/-- `get_source_ip_category` delegates to `get_ip_type_from_string`. -/
def get_source_ip_category (ip : Option String) : Int :=
  get_ip_type_from_string ip

/-- `get_destination_ip_category` delegates to `get_ip_type_from_string`. -/
def get_destination_ip_category (ip : Option String) : Int :=
  get_ip_type_from_string ip

/-- A parsed packet observation as handed to `analyze_packet`.  A missing
dict key is `none`; `get(key, default)` is modelled with `Option.getD`.
The timestamp is not carried: the hour it yields is the explicit `clockHour`. -/
structure PacketData where
  packetSize : Option Int
  sourcePort : Option Int
  destinationPort : Option Int
  protocol : Option String
  sourceIP : Option String
  destinationIP : Option String
  networkInterface : Option String
deriving Repr, DecidableEq

/-- `ThreatDetector.extract_features_from_packet`: the 9 features in source
order.  All inputs default as the `.get(..., 0)` / `.get(..., '')` calls do. -/
def extract_features_from_packet (p : PacketData) (clockHour : Int) : List Int :=
  [ p.packetSize.getD 0,
    p.sourcePort.getD 0,
    p.destinationPort.getD 0,
    get_protocol_number (some (p.protocol.getD "")),
    clockHour,
    get_port_category (some (p.destinationPort.getD 0)),
    get_packet_size_category (some (p.packetSize.getD 0)),
    get_source_ip_category (some (p.sourceIP.getD "")),
    get_destination_ip_category (some (p.destinationIP.getD "")) ]

/-- One row of the bulk-import CSV after the required-column check has
passed: every required column is present, a cell may still be NaN.
`threat_type` is read as a string by the validation step. -/
structure CsvRow where
  source_ip : Option String
  dest_ip : Option String
  source_port : Option Int
  dest_port : Option Int
  protocol : Option String
  packet_size : Option Int
  duration : Option Int
  threat_type : String
deriving Repr, DecidableEq

/-- `ThreatDetector.extract_features_from_csv_row`: the 9 features in source
order; `float(row[c]) if pd.notna(row[c]) else 0` is `Option.getD 0`. -/
def extract_features_from_csv_row (r : CsvRow) (clockHour : Int) : List Int :=
  [ r.packet_size.getD 0,
    r.source_port.getD 0,
    r.dest_port.getD 0,
    get_protocol_number r.protocol,
    clockHour,
    get_port_category r.dest_port,
    get_packet_size_category r.packet_size,
    get_ip_type_from_string r.source_ip,
    get_ip_type_from_string r.dest_ip ]

/-- A training sample as built by `process_csv_file` / `learn_from_detection`
(the `raw_data` snapshot is dropped: it is only stored, never computed with). -/
structure TrainingSample where
  features : List Int
  label : String
deriving Repr, DecidableEq

/-- `ThreatDetector.process_csv_file` after the required-column validation:
the threat-type filter (applied only when invalid labels are present, as in
the source), then per-row feature extraction keeping rows whose feature
vector has the expected 9 entries (the `np.isnan` guard cannot fire on `Int`
features). -/
def process_csv_file (rows : List CsvRow) (clockHour : Int) : List TrainingSample :=
  let df :=
    if rows.any (fun r => !(threat_types.contains r.threat_type)) then
      rows.filter (fun r => threat_types.contains r.threat_type)
    else rows
  df.filterMap (fun r =>
    let features := extract_features_from_csv_row r clockHour
    if features.length = 9 then
      some { features := features, label := r.threat_type }
    else none)

/-- `ThreatDetector.get_severity`: the source ignores `classification` and
keys severity on confidence alone. -/
def get_severity (classification : String) (confidence : ℚ) : String :=
  if confidence > 9/10 then "Critical"
  else if confidence > 8/10 then "High"
  else if confidence > 7/10 then "Medium"
  else "Low"

/-- `ThreatDetector.get_threat_type`. -/
def get_threat_type (classification : String) : String :=
  if classification = "Malware" then "Malware Detection"
  else if classification = "DDoS" then "DDoS Attack"
  else if classification = "Intrusion" then "Unauthorized Access"
  else if classification = "Phishing" then "Phishing Attempt"
  else if classification = "Port_Scan" then "Port Scanning"
  else if classification = "Brute_Force" then "Brute Force Attack"
  else "Unknown Threat"

/-- `ThreatDetector.get_threat_description`. -/
def get_threat_description (classification : String) (p : PacketData) : String :=
  let source := p.sourceIP.getD "Unknown"
  let destination := p.destinationIP.getD "Unknown"
  let destPort := match p.destinationPort with
    | none => "N/A"
    | some n => toString n
  if classification = "Malware" then
    "Malicious activity detected from " ++ source ++ " targeting " ++ destination
  else if classification = "DDoS" then
    "Potential DDoS attack detected from " ++ source
  else if classification = "Intrusion" then
    "Unauthorized access attempt from " ++ source ++ " to " ++ destination ++ ":" ++ destPort
  else if classification = "Phishing" then
    "Phishing attempt detected from " ++ source
  else if classification = "Port_Scan" then
    "Port scanning activity detected from " ++ source
  else if classification = "Brute_Force" then
    "Brute force attack detected against " ++ destination ++ ":" ++ destPort
  else
    "Suspicious " ++ classification.toLower ++ " activity detected"

/-- A threat record as built by `create_threat_record` (the random `id` and
the timestamp string are dropped; every computed field is kept). -/
structure ThreatRecord where
  threatType : String
  severity : String
  source : String
  destination : String
  sourcePort : Option Int
  destinationPort : Option Int
  protocol : String
  packetSize : Option Int
  description : String
  classification : String
  confidence : ℚ
  rawPacketData : PacketData
  features : List Int
deriving Repr, DecidableEq

/-- `ThreatDetector.create_threat_record`: every field is a total lookup or a
call to one of the pure helpers, so the surrounding `try` never fires. -/
def create_threat_record (p : PacketData) (classification : String)
    (confidence : ℚ) (features : List Int) : ThreatRecord :=
  { threatType := get_threat_type classification,
    severity := get_severity classification confidence,
    source := p.sourceIP.getD "Unknown",
    destination := p.destinationIP.getD "Unknown",
    sourcePort := p.sourcePort,
    destinationPort := p.destinationPort,
    protocol := p.protocol.getD "Unknown",
    packetSize := p.packetSize,
    description := get_threat_description classification p,
    classification := classification,
    confidence := confidence,
    rawPacketData := p,
    features := features }

/-- The fitted `StandardScaler` held in `self.scaler`, abstracted to its
`transform` method on a single feature vector; it may raise. -/
def Scaler : Type := List Int → Except String (List ℚ)

/-- The fitted `RandomForestClassifier` held in `self.model`, abstracted to
the composite of `predict`, `predict_proba` and `label_encoder.inverse_transform`
on one scaled vector: the predicted label and the probability the model
assigns to it; it may raise. -/
def Model : Type := List ℚ → Except String (String × ℚ)

/-- One entry of `self.training_history`. -/
structure TrainingRecord where
  date : String
  samples : Nat
  accuracy : ℚ
  version : Nat

/-- The mutable fields of a `ThreatDetector` instance touched by
`analyze_packet` and `train_model`. -/
structure DetectorState where
  model : Option Model
  scaler : Option Scaler
  is_trained : Bool
  model_version : Nat
  total_samples_trained : Nat
  last_training_date : Option String
  training_history : List TrainingRecord
  threat_threshold : ℚ

/-- The value of `analyze_packet`. -/
structure AnalysisResult where
  classification : String
  confidence : ℚ
  threat : Option ThreatRecord
  isThreat : Bool

/-- The body of `analyze_packet`'s `try` block up to the prediction: feature
extraction (internally exception-safe in the source), `self.scaler.transform`
(an `AttributeError` when `self.scaler` is `None`), then the model's
prediction; any raise lands in the `except` branch of `analyze_packet`. -/
def run_prediction (st : DetectorState) (m : Model) (p : PacketData)
    (clockHour : Int) : Except String (String × ℚ) := do
  let features := extract_features_from_packet p clockHour
  let scaled ← match st.scaler with
    | none => Except.error "AttributeError: NoneType object has no attribute transform"
    | some sc => sc features
  m scaled

/-- `ThreatDetector.analyze_packet`.  The first match is the guard
`if not self.is_trained or self.model is None`; the match on
`run_prediction` is the `try/except` around the prediction pipeline. -/
def analyze_packet (st : DetectorState) (p : PacketData) (clockHour : Int) :
    AnalysisResult :=
  match st.model, st.is_trained with
  | some m, true =>
    match run_prediction st m p clockHour with
    | Except.error _ =>
      { classification := "Error", confidence := 0, threat := none, isThreat := false }
    | Except.ok (classification, confidence) =>
      let features := extract_features_from_packet p clockHour
      let is_threat := classification != "Normal" && decide (confidence > st.threat_threshold)
      { classification := classification,
        confidence := confidence,
        threat :=
          if is_threat then
            some (create_threat_record p classification confidence features)
          else none,
        isThreat := is_threat }
  | _, _ =>
    { classification := "Unknown", confidence := 1/2, threat := none, isThreat := false }

/-- `label_encoder.transform`: raises on a label outside the fitted classes,
otherwise returns each label's index in the sorted class list. -/
def encode_labels (labels : List String) : Except String (List Nat) :=
  if labels.all (fun l => label_classes.contains l) then
    Except.ok (labels.map (fun l => label_classes.indexOf l))
  else
    Except.error "y contains previously unseen labels"

/-- The scikit-learn numeric stages of `train_model`, abstracted: the
stratified `train_test_split` (raises when a class is too small to
stratify), `StandardScaler` fit on the training split plus `transform` of
both splits, `RandomForestClassifier.fit`, and the held-out accuracy. -/
structure FitOracle where
  split : List TrainingSample →
    Except String (List TrainingSample × List TrainingSample)
  fitScaler : List (List Int) → List (List Int) → Except String Scaler
  fitModel : List TrainingSample → Except String Model
  evalAccuracy : Model → Scaler → List TrainingSample → ℚ

/-- The success value of `train_model`. -/
structure TrainOutcome where
  success : Bool
  samplesProcessed : Nat
  accuracy : ℚ
  version : Nat

/-- `ThreatDetector.train_model` on an explicitly supplied sample list
(persistence of samples to the database is a collaborator side effect and is
not part of the detector state).  The version counter is incremented first,
before any validation, exactly as in the source; each `Except.error` models
the corresponding raise propagating out of `train_model`, with the fields
assigned so far left behind. -/
def train_model (oracle : FitOracle) (st : DetectorState)
    (training_data : List TrainingSample) (now : String) :
    DetectorState × Except String TrainOutcome :=
  let st1 := { st with model_version := st.model_version + 1 }
  if training_data.length < 10 then
    (st1, Except.error ("Insufficient training data. Need at least 10 samples, got "
      ++ toString training_data.length))
  else if !(training_data.all fun s => s.features.length = 9) then
    (st1, Except.error "Expected 9 features")
  else
    match oracle.split training_data with
    | Except.error e => (st1, Except.error e)
    | Except.ok (train_set, test_set) =>
      match oracle.fitScaler (train_set.map (fun s => s.features))
          (test_set.map (fun s => s.features)) with
      | Except.error e => (st1, Except.error e)
      | Except.ok sc =>
        let st2 := { st1 with scaler := some sc }
        match encode_labels (train_set.map (fun s => s.label)) with
        | Except.error e => (st2, Except.error e)
        | Except.ok _ =>
          match encode_labels (test_set.map (fun s => s.label)) with
          | Except.error e => (st2, Except.error e)
          | Except.ok _ =>
            match oracle.fitModel train_set with
            | Except.error e => (st2, Except.error e)
            | Except.ok m =>
              let acc := oracle.evalAccuracy m sc test_set
              let st3 := { st2 with
                model := some m,
                is_trained := true,
                total_samples_trained :=
                  st2.total_samples_trained + training_data.length,
                last_training_date := some now,
                training_history := st2.training_history ++
                  [{ date := now, samples := training_data.length,
                     accuracy := acc, version := st2.model_version }] }
              (st3, Except.ok
                { success := true,
                  samplesProcessed := training_data.length,
                  accuracy := acc,
                  version := st3.model_version })

/-- `NetworkMonitor.buffer_size`, set in `__init__`. -/
def buffer_size : Nat := 1000

/-- `NetworkMonitor.handle_packet` restricted to the buffer update: append
the packet, then `pop(0)` when the buffer has outgrown `buffer_size` (the
handler callback does not touch the buffer). -/
def handle_packet {α : Type} (packet_buffer : List α) (packet : α) : List α :=
  let buf := packet_buffer ++ [packet]
  if buffer_size < buf.length then buf.drop 1 else buf

/-! ## Spec-side definitions

These follow the wording of the specification (sections 4.1 and 4.3), to be
compared with the definitions translated from the source above. -/

/-- Spec wording: "Private-range test: prefixes 10.x, 192.168.x, and
172.16-172.31.x", with the sixteen 172 prefixes spelled out. -/
def spec_is_private_ip (s : String) : Bool :=
  s.startsWith "10." || s.startsWith "192.168." ||
  s.startsWith "172.16." || s.startsWith "172.17." || s.startsWith "172.18." ||
  s.startsWith "172.19." || s.startsWith "172.20." || s.startsWith "172.21." ||
  s.startsWith "172.22." || s.startsWith "172.23." || s.startsWith "172.24." ||
  s.startsWith "172.25." || s.startsWith "172.26." || s.startsWith "172.27." ||
  s.startsWith "172.28." || s.startsWith "172.29." || s.startsWith "172.30." ||
  s.startsWith "172.31."

/-- Spec wording: "source-IP locality: private range→1, non-empty public→2,
empty/unknown→0". -/
def spec_ip_locality (ip : Option String) : Int :=
  match ip with
  | none => 0
  | some s => if s = "" then 0 else if spec_is_private_ip s then 1 else 2

/-- The feature vector exactly as the spec's section 4.1 field table reads,
with each derivation inlined in the documented fixed order. -/
def spec_feature_vector (p : PacketData) (clockHour : Int) : List Int :=
  [ p.packetSize.getD 0,
    p.sourcePort.getD 0,
    p.destinationPort.getD 0,
    (let u := (p.protocol.getD "").toUpper
     if u = "TCP" then 6 else if u = "UDP" then 17 else if u = "ICMP" then 1 else 0),
    clockHour,
    (let d := p.destinationPort.getD 0
     if d < 1024 then 1 else if d < 49152 then 2 else 3),
    (let sz := p.packetSize.getD 0
     if sz < 64 then 1 else if sz < 512 then 2 else if sz < 1024 then 3 else 4),
    spec_ip_locality (some (p.sourceIP.getD "")),
    spec_ip_locality (some (p.destinationIP.getD "")) ]

/-- Spec wording: "severity by confidence: >0.9 → Critical, >0.8 → High,
>0.7 → Medium, else → Low" — confidence alone, no other input. -/
def spec_severity (confidence : ℚ) : String :=
  if confidence > 9/10 then "Critical"
  else if confidence > 8/10 then "High"
  else if confidence > 7/10 then "Medium"
  else "Low"

/-! ## Concrete fixtures used by witness theorems -/

/-- The packet of the spec's scenario 2 (size 40, srcPort 4444, dstPort 22, TCP). -/
def packetW : PacketData :=
  { packetSize := some 40, sourcePort := some 4444, destinationPort := some 22,
    protocol := some "TCP", sourceIP := some "10.0.0.5",
    destinationIP := some "192.168.1.9", networkInterface := some "eth0" }

/-- A concrete scaler that casts each feature to `ℚ` and never raises. -/
def scalerW : Scaler := fun xs => Except.ok (xs.map fun i => (i : ℚ))

/-- A concrete model that always predicts Port_Scan with probability 0.95. -/
def modelW : Model := fun _ => Except.ok ("Port_Scan", 95/100)

/-- A trained detector state holding `modelW`/`scalerW` at the default threshold. -/
def stW : DetectorState :=
  { model := some modelW, scaler := some scalerW, is_trained := true,
    model_version := 2, total_samples_trained := 10, last_training_date := none,
    training_history := [], threat_threshold := 7/10 }

/-- The freshly constructed, untrained detector state. -/
def stUntrainedW : DetectorState :=
  { model := none, scaler := none, is_trained := false,
    model_version := 1, total_samples_trained := 0, last_training_date := none,
    training_history := [], threat_threshold := 7/10 }

/-- A corrupted state whose prediction pipeline raises: the model is present
but `self.scaler` is `None`, so `self.scaler.transform` raises. -/
def stNoScalerW : DetectorState :=
  { model := some modelW, scaler := none, is_trained := true,
    model_version := 2, total_samples_trained := 10, last_training_date := none,
    training_history := [], threat_threshold := 7/10 }

/-- A concrete fit oracle whose numeric stages all succeed. -/
def oracleW : FitOracle :=
  { split := fun d => Except.ok (d, d),
    fitScaler := fun _ _ => Except.ok scalerW,
    fitModel := fun _ => Except.ok modelW,
    evalAccuracy := fun _ _ _ => 1 }

/-! ## Helper lemmas -/

theorem range_sixteen :
    List.range' 16 16 = [16, 17, 18, 19, 20, 21, 22, 23, 24, 25, 26, 27, 28, 29, 30, 31] := by
  decide

theorem source_private_eq (s : String) :
    (s.startsWith "192.168." || s.startsWith "10." ||
      ((List.range' 16 16).any fun i => s.startsWith ("172." ++ toString i ++ "."))) =
    spec_is_private_ip s := by
  have h16 : ("172." ++ toString (16:Nat) ++ ".") = "172.16." := rfl
  have h17 : ("172." ++ toString (17:Nat) ++ ".") = "172.17." := rfl
  have h18 : ("172." ++ toString (18:Nat) ++ ".") = "172.18." := rfl
  have h19 : ("172." ++ toString (19:Nat) ++ ".") = "172.19." := rfl
  have h20 : ("172." ++ toString (20:Nat) ++ ".") = "172.20." := rfl
  have h21 : ("172." ++ toString (21:Nat) ++ ".") = "172.21." := rfl
  have h22 : ("172." ++ toString (22:Nat) ++ ".") = "172.22." := rfl
  have h23 : ("172." ++ toString (23:Nat) ++ ".") = "172.23." := rfl
  have h24 : ("172." ++ toString (24:Nat) ++ ".") = "172.24." := rfl
  have h25 : ("172." ++ toString (25:Nat) ++ ".") = "172.25." := rfl
  have h26 : ("172." ++ toString (26:Nat) ++ ".") = "172.26." := rfl
  have h27 : ("172." ++ toString (27:Nat) ++ ".") = "172.27." := rfl
  have h28 : ("172." ++ toString (28:Nat) ++ ".") = "172.28." := rfl
  have h29 : ("172." ++ toString (29:Nat) ++ ".") = "172.29." := rfl
  have h30 : ("172." ++ toString (30:Nat) ++ ".") = "172.30." := rfl
  have h31 : ("172." ++ toString (31:Nat) ++ ".") = "172.31." := rfl
  rw [range_sixteen]
  simp only [List.any_cons, List.any_nil, Bool.or_false,
    h16, h17, h18, h19, h20, h21, h22, h23, h24, h25, h26, h27, h28, h29, h30, h31,
    spec_is_private_ip]
  simp only [Bool.or_assoc]
  rw [Bool.or_left_comm]

theorem ip_locality_eq (ip : Option String) :
    get_ip_type_from_string ip = spec_ip_locality ip := by
  match ip with
  | none => rfl
  | some s =>
    simp only [get_ip_type_from_string, spec_ip_locality, source_private_eq]

theorem filterMap_some_eq_map {α β : Type} (f : α → β) (l : List α) :
    l.filterMap (fun a => some (f a)) = l.map f := by
  induction l with
  | nil => rfl
  | cons a l ih => simp [List.filterMap_cons, ih]

/-! ## Claim theorems -/

/-- C2: whenever a ThreatRecord is created, its severity is a pure function of
confidence alone — for every packet, classification and feature vector the
record's severity equals `spec_severity confidence` (>0.9 Critical, >0.8 High,
>0.7 Medium, else Low) — and at the boundaries confidence 0.9001 gives
Critical, exactly 0.9 gives High, and exactly 0.8 gives Medium. -/
theorem severity_pure_function_of_confidence :
    (∀ (p : PacketData) (cls : String) (conf : ℚ) (features : List Int),
      (create_threat_record p cls conf features).severity = spec_severity conf) ∧
    get_severity "Port_Scan" (9001/10000) = "Critical" ∧
    get_severity "DDoS" (9/10) = "High" ∧
    get_severity "Malware" (8/10) = "Medium" := by
  refine ⟨fun p cls conf features => rfl, ?_, ?_, ?_⟩ <;>
    norm_num [get_severity]

/-- C6: feature extraction from a packet returns exactly 9 numeric fields and
equals, field by field, the spec's documented derivations (protocol TCP→6,
UDP→17, ICMP→1, else 0; port category <1024→1, <49152→2, else 3; size
category <64→1, <512→2, <1024→3, else 4; IP locality 1 for the private
prefixes, 2 for non-empty public, 0 for empty; missing numeric inputs
default to 0); as a total function it never raises. -/
theorem extract_features_matches_spec (p : PacketData) (clockHour : Int) :
    (extract_features_from_packet p clockHour).length = 9 ∧
    extract_features_from_packet p clockHour = spec_feature_vector p clockHour := by
  refine ⟨rfl, ?_⟩
  simp only [extract_features_from_packet, spec_feature_vector,
    get_source_ip_category, get_destination_ip_category, ip_locality_eq]
  rfl

/-- C10: a missing (NaN) destination port or packet size makes the category
helpers return 0, which lies outside the 1-3 (port) and 1-4 (size) ranges
those helpers produce on present values, while a present value of 0 maps to
category 1 in both. -/
theorem category_of_nan_is_out_of_range :
    get_port_category none = 0 ∧
    get_packet_size_category none = 0 ∧
    (∀ p : Int, get_port_category (some p) = 1 ∨ get_port_category (some p) = 2 ∨
      get_port_category (some p) = 3) ∧
    (∀ s : Int, get_packet_size_category (some s) = 1 ∨
      get_packet_size_category (some s) = 2 ∨
      get_packet_size_category (some s) = 3 ∨
      get_packet_size_category (some s) = 4) ∧
    get_port_category (some 0) = 1 ∧
    get_packet_size_category (some 0) = 1 := by
  refine ⟨rfl, rfl, ?_, ?_, ?_, ?_⟩
  · intro p
    simp only [get_port_category]
    split_ifs <;> simp
  · intro s
    simp only [get_packet_size_category]
    split_ifs <;> simp
  · simp [get_port_category]
  · simp [get_packet_size_category]

/-- C1: with a trained model, the result's isThreat flag is true iff the
predicted label is not "Normal" and the confidence is strictly greater than
the configured threat threshold; confidence exactly equal to the threshold
yields isThreat false; the default threshold is 0.7. -/
theorem analyze_packet_isThreat_iff (st : DetectorState) (m : Model)
    (p : PacketData) (clockHour : Int) (cls : String) (conf : ℚ)
    (hm : st.model = some m) (ht : st.is_trained = true)
    (hok : run_prediction st m p clockHour = Except.ok (cls, conf)) :
    ((analyze_packet st p clockHour).isThreat = true ↔
      cls ≠ "Normal" ∧ conf > st.threat_threshold) ∧
    (conf = st.threat_threshold → (analyze_packet st p clockHour).isThreat = false) ∧
    default_threat_threshold = 7/10 := by
  have hres : analyze_packet st p clockHour =
      let features := extract_features_from_packet p clockHour
      let is_threat := cls != "Normal" && decide (conf > st.threat_threshold)
      { classification := cls, confidence := conf,
        threat := if is_threat then
            some (create_threat_record p cls conf features) else none,
        isThreat := is_threat } := by
    simp only [analyze_packet, hm, ht, hok]
  refine ⟨?_, ?_, rfl⟩
  · rw [hres]
    simp [Bool.and_eq_true, bne_iff_ne, decide_eq_true_iff]
  · intro heq
    rw [hres]
    simp [heq]

/-- C3: with no model artifact loaded (untrained state), every observation is
classified as label "Unknown" with confidence 0.5, isThreat false and no
threat record. -/
theorem analyze_packet_untrained (st : DetectorState) (p : PacketData)
    (clockHour : Int) (h : st.is_trained = false ∨ st.model = none) :
    analyze_packet st p clockHour =
      { classification := "Unknown", confidence := 1/2, threat := none,
        isThreat := false } := by
  rcases h with h | h
  · unfold analyze_packet
    rw [h]
    cases st.model <;> rfl
  · unfold analyze_packet
    rw [h]

/-- C7: any exception raised by the prediction pipeline inside analyze_packet
is caught and converted to the neutral result with label "Error", confidence
0 and isThreat false; analyze_packet itself is a total function, so no
exception propagates to the caller. -/
theorem analyze_packet_catches_errors (st : DetectorState) (m : Model)
    (p : PacketData) (clockHour : Int) (e : String)
    (hm : st.model = some m) (ht : st.is_trained = true)
    (herr : run_prediction st m p clockHour = Except.error e) :
    analyze_packet st p clockHour =
      { classification := "Error", confidence := 0, threat := none,
        isThreat := false } := by
  simp only [analyze_packet, hm, ht, herr]

/-- C4: every invocation of train_model leaves the model version counter at
exactly its previous value plus 1 — on the success path, on the
too-few-samples rejection, and on every mid-pipeline failure alike, because
the counter is bumped before validation. -/
theorem train_model_always_bumps_version (oracle : FitOracle)
    (st : DetectorState) (training_data : List TrainingSample) (now : String) :
    (train_model oracle st training_data now).1.model_version =
      st.model_version + 1 := by
  unfold train_model
  split
  · rfl
  · split
    · rfl
    · split
      · rfl
      · split
        · rfl
        · split
          · rfl
          · split
            · rfl
            · split <;> rfl

/-- C5: a train_model call with fewer than 10 samples fails with the explicit
insufficient-data validation error, and the model artifact (trained model and
scaler, and with them the trained flag) is exactly what it was before the
call. -/
theorem train_model_insufficient_rejects (oracle : FitOracle)
    (st : DetectorState) (training_data : List TrainingSample) (now : String)
    (h : training_data.length < 10) :
    (train_model oracle st training_data now).2 =
      Except.error ("Insufficient training data. Need at least 10 samples, got "
        ++ toString training_data.length) ∧
    (train_model oracle st training_data now).1.model = st.model ∧
    (train_model oracle st training_data now).1.scaler = st.scaler ∧
    (train_model oracle st training_data now).1.is_trained = st.is_trained := by
  unfold train_model
  rw [if_pos h]
  exact ⟨rfl, rfl, rfl, rfl⟩

/-- C8: for a bulk CSV import whose rows all carry the required columns,
the result equals the per-row extraction mapped over exactly those rows whose
threat_type lies in the closed label set: invalid rows are dropped, every
valid row is retained, and no row aborts the import (the function is total). -/
theorem process_csv_drops_only_invalid_rows (rows : List CsvRow)
    (clockHour : Int) :
    process_csv_file rows clockHour =
      (rows.filter (fun r => threat_types.contains r.threat_type)).map
        (fun r => { features := extract_features_from_csv_row r clockHour,
                    label := r.threat_type }) := by
  have hfun : (fun r : CsvRow =>
      let features := extract_features_from_csv_row r clockHour
      if features.length = 9 then
        (some { features := features, label := r.threat_type } :
          Option TrainingSample)
      else none) =
      (fun r : CsvRow =>
        some ({ features := extract_features_from_csv_row r clockHour,
                label := r.threat_type } : TrainingSample)) := rfl
  have hfm : ∀ l : List CsvRow,
      (l.filterMap (fun r =>
        let features := extract_features_from_csv_row r clockHour
        if features.length = 9 then
          some { features := features, label := r.threat_type }
        else none) : List TrainingSample) =
      l.map (fun r => { features := extract_features_from_csv_row r clockHour,
                        label := r.threat_type }) := by
    intro l
    rw [hfun]
    exact filterMap_some_eq_map
      (fun r : CsvRow =>
        ({ features := extract_features_from_csv_row r clockHour,
           label := r.threat_type } : TrainingSample)) l
  unfold process_csv_file
  split
  · exact hfm _
  · rw [hfm rows]
    congr 1
    rename_i hno
    refine (List.filter_eq_self.mpr ?_).symm
    intro r hr
    by_contra hcon
    exact hno (List.any_eq_true.mpr ⟨r, hr, by simpa using hcon⟩)

/-- C9: the packet buffer is bounded at the fixed capacity buffer_size = 1000:
if the buffer respects the bound before handle_packet, it still does after,
and a packet arriving at a full buffer evicts the oldest entry (the head). -/
theorem handle_packet_buffer_bounded {α : Type} (packet_buffer : List α)
    (packet : α) (h : packet_buffer.length ≤ 1000) :
    (handle_packet packet_buffer packet).length ≤ 1000 ∧
    (packet_buffer.length = 1000 →
      handle_packet packet_buffer packet = packet_buffer.tail ++ [packet]) ∧
    buffer_size = 1000 := by
  refine ⟨?_, ?_, rfl⟩
  · simp only [handle_packet, buffer_size]
    split
    · simp only [List.length_drop, List.length_append, List.length_cons,
        List.length_nil]
      omega
    · rename_i hc
      simp only [not_lt, List.length_append, List.length_cons,
        List.length_nil] at hc
      simp only [List.length_append, List.length_cons, List.length_nil]
      omega
  · intro hfull
    simp only [handle_packet, buffer_size]
    rw [if_pos (by simp [List.length_append, hfull])]
    rcases packet_buffer with _ | ⟨a, l⟩
    · simp at hfull
    · simp

/-! ## Witnesses -/

/-- Witness for C1: the trained state `stW` analysing the scenario packet,
predicted Port_Scan with confidence 0.95. -/
theorem analyze_packet_isThreat_iff_witness :
    ((analyze_packet stW packetW 12).isThreat = true ↔
      "Port_Scan" ≠ "Normal" ∧ (95/100 : ℚ) > stW.threat_threshold) ∧
    ((95/100 : ℚ) = stW.threat_threshold →
      (analyze_packet stW packetW 12).isThreat = false) ∧
    default_threat_threshold = 7/10 :=
  analyze_packet_isThreat_iff stW modelW packetW 12 "Port_Scan" (95/100)
    rfl rfl rfl

/-- Witness for C3: the freshly constructed untrained state. -/
theorem analyze_packet_untrained_witness :
    analyze_packet stUntrainedW packetW 12 =
      { classification := "Unknown", confidence := 1/2, threat := none,
        isThreat := false } :=
  analyze_packet_untrained stUntrainedW packetW 12 (Or.inr rfl)

/-- Witness for C7: a state whose scaler is missing, so the prediction
pipeline raises and the neutral Error result is returned. -/
theorem analyze_packet_catches_errors_witness :
    analyze_packet stNoScalerW packetW 12 =
      { classification := "Error", confidence := 0, threat := none,
        isThreat := false } :=
  analyze_packet_catches_errors stNoScalerW modelW packetW 12
    "AttributeError: NoneType object has no attribute transform" rfl rfl rfl

/-- Witness for C5: training on the empty sample list is rejected and leaves
the artifact untouched. -/
theorem train_model_insufficient_rejects_witness :
    (train_model oracleW stUntrainedW [] "2026-10-12").2 =
      Except.error ("Insufficient training data. Need at least 10 samples, got "
        ++ toString ([] : List TrainingSample).length) ∧
    (train_model oracleW stUntrainedW [] "2026-10-12").1.model =
      stUntrainedW.model ∧
    (train_model oracleW stUntrainedW [] "2026-10-12").1.scaler =
      stUntrainedW.scaler ∧
    (train_model oracleW stUntrainedW [] "2026-10-12").1.is_trained =
      stUntrainedW.is_trained :=
  train_model_insufficient_rejects oracleW stUntrainedW [] "2026-10-12"
    (by decide)

/-- Witness for C9: a full 1000-entry buffer receiving one more packet. -/
theorem handle_packet_buffer_bounded_witness :
    (handle_packet (List.replicate 1000 (0 : Nat)) 7).length ≤ 1000 ∧
    ((List.replicate 1000 (0 : Nat)).length = 1000 →
      handle_packet (List.replicate 1000 (0 : Nat)) 7 =
        (List.replicate 1000 (0 : Nat)).tail ++ [7]) ∧
    buffer_size = 1000 :=
  handle_packet_buffer_bounded (List.replicate 1000 (0 : Nat)) 7
    (le_of_eq (List.length_replicate 1000 0))
